import Mathlib

/-!
Verification of `src/graphql/schema/collection/getCollectionGqlType.ts`: the
builder that produces the GraphQL output object type for a collection.  The
data model and the builder are translated from the source; collaborators that
live in other modules of the repository (utils, the condition type builder,
the connection field builder) are modelled from the specification, each with a
doc comment saying so.  JavaScript reference identity of objects is modelled
by numeric identity tags (`id` fields), and the identity of freshly built type
instances by a fresh-allocation counter in `SchemaCache`.
-/

/-- Dynamic (JavaScript `mixed`) values stored in the fields of an object
value. `undef` stands for the JavaScript `undefined`. -/
inductive Mixed where
  | undef
  | str (s : String)
  | int (n : Int)
deriving Repr, DecidableEq

/-- A runtime value flowing through the schema (`ObjectType.Value` plus the
null and undefined cases that `isTypeOf` must handle).  An object value may
carry the `$$nodeValueCollection` provenance tag, modelled as the identity
tag of the collection it came from. -/
inductive Value where
  | nullV
  | undefinedV
  | obj (tag : Option Nat) (entries : List (String × Mixed))
deriving Repr, DecidableEq

/-- The `$$nodeValueCollection` tag of a value: `value[$$nodeValueCollection]`,
`none` when the property is absent (JavaScript `undefined`). -/
def Value.tag : Value → Option Nat
  | Value.obj t _ => t
  | _ => none

/-- Models the JavaScript loose check `value != null`, which is false exactly
for `null` and `undefined`. -/
def Value.isObjValue : Value → Bool
  | Value.obj _ _ => true
  | _ => false

/-- Lookup of a field in the entry list of an object value, JavaScript
`undefined` when absent. -/
def lookupEntry : List (String × Mixed) → String → Mixed
  | [], _ => Mixed.undef
  | (k, v) :: rest, fieldName => if fieldName = k then v else lookupEntry rest fieldName

/-- `value.get(fieldName)`: look the field up in the entries of the object
value, JavaScript `undefined` when absent or when the value is not an
object. -/
def Value.get : Value → String → Mixed
  | Value.obj _ entries, fieldName => lookupEntry entries fieldName
  | _, _ => Mixed.undef

/-- Raw GraphQL input for the `condition` argument (the object the caller
passes). -/
def GqlInput : Type := List (String × Mixed)

/-- An opaque filter condition (`Condition` of the interface), composable via
logical AND.  `trueC` is the neutral condition; `fieldsC` is a condition
parsed from raw GraphQL input; `atom` lets test instantiations build
distinguishable head-derived conditions. -/
inductive Condition where
  | trueC
  | fieldsC (input : GqlInput)
  | atom (n : Nat)
  | andC (a b : Condition)

/-- Modelled from the spec: `conditionHelpers.and` comes from the interface
module, which is not under `src/`.  The spec says conditions compose via
logical AND and that the neutral "true" condition is an identity for that
composition. -/
def conditionAnd : Condition → Condition → Condition
  | Condition.trueC, b => b
  | a, Condition.trueC => a
  | a, b => Condition.andC a b

/-- GraphQL output types as this builder consumes them: the `ID` scalar,
non-null wrappers, and the external types returned by the `getGqlType`
collaborator (kept opaque, identified by a code). -/
inductive GqlType where
  | gqlID
  | nonNull (t : GqlType)
  | ext (code : Nat)
deriving Repr, DecidableEq

/-- GraphQL input types: only the condition input type matters here; it is
kept opaque up to its name. -/
inductive GqlInputType where
  | condType (typeName : String)
deriving Repr, DecidableEq

/-- What `getConditionGqlType` returns: the GraphQL input type for conditions
on an entity type, and the parser from raw GraphQL input to an internal
condition. -/
structure ConditionTypeInfo where
  gqlType : GqlInputType
  fromGqlInput : Option GqlInput → Condition

/-- A GraphQL field configuration as this builder produces it: either a plain
output field (description, type, resolver) or a connection field built by the
`createConnectionGqlField` collaborator (recording the paginator it pages,
its input argument entries, and its `getPaginatorInput` function). -/
inductive GqlField where
  | out (description : Option String) (type : GqlType) (resolve : Value → Mixed)
  | conn (paginatorId : Nat) (inputArgEntries : List (String × GqlInputType))
      (getPaginatorInput : Value → Option GqlInput → Condition)

/-- A field of an interface `ObjectType`: its description and its semantic
type (opaque, identified by a code; `getGqlType` resolves it). -/
structure ObjField where
  description : Option String
  type : Nat

/-- An interface `ObjectType`: name, ordered field map, and the shape-check
capability `isTypeOf` (an opaque predicate supplied by the interface layer). -/
structure ObjType where
  name : String
  fields : List (String × ObjField)
  isTypeOf : Value → Bool

/-- An interface `Collection`.  `id` models JavaScript reference identity of
the collection object; `primaryKey` and `paginator` are kept opaque up to
presence (identified by codes). -/
structure Collection where
  id : Nat
  name : String
  description : Option String
  type : ObjType
  primaryKey : Option Nat
  paginator : Option Nat

/-- An interface `Relation`.  `headCollectionId` is the identity tag of
`relation.headCollectionKey.collection` (the source compares it to the target
collection with `===`).  `getTailConditionFromHeadValue` is the optional
capability deriving a tail condition from a head value. -/
structure Relation where
  headCollectionId : Nat
  tailCollection : Collection
  name : String
  getTailConditionFromHeadValue : Option (Value → Condition)

/-- The inventory of the build token, restricted to what this builder reads:
`inventory.getRelations()`. -/
structure Inventory where
  relations : List Relation

/-- The options of the build token, restricted to what this builder reads. -/
structure Options where
  nodeIdFieldName : String

/-- The `_hooks` of the build token: the optional object-type field entry
hook.  The hook receives the entity type (in the source it also receives the
ambient build token, closed over here). -/
structure Hooks where
  objectTypeFieldEntries : Option (ObjType → List (String × GqlField))

/-- The build token together with the module-level collaborators the source
file imports.  `id` models reference identity of the token (the memoization
key).  `formatTypeName` and `formatFieldName` are `formatName.type` and
`formatName.field`; `getGqlType` the shared type resolution collaborator;
`serializeId` is `idSerde.serialize`; `nodeInterface` the identity tag of
`getNodeInterfaceType(buildToken)`; `tailRelationEntries` is
`createCollectionRelationTailGqlFieldEntries(buildToken, collection)`.
All of them are kept abstract: the claims constrain only how this builder
wires them. -/
structure BuildToken where
  id : Nat
  options : Options
  inventory : Inventory
  hooks : Hooks
  formatTypeName : String → String
  formatFieldName : String → String
  getGqlType : Nat → Bool → GqlType
  serializeId : Collection → Value → String
  nodeInterface : Nat
  tailRelationEntries : Collection → List (String × GqlField)

/-- The produced `GraphQLObjectType`: name, description, identity-check
predicate, declared interfaces (identity tags), and the lazy field thunk. -/
structure GqlObjectType where
  name : String
  description : Option String
  isTypeOf : Value → Bool
  interfaces : List Nat
  fields : Unit → List (String × GqlField)

/-- Modelled from the spec: `getConditionGqlType` lives in a sibling file not
under `src/`.  Per the spec it builds a filter-condition input type for an
entity type together with a parser from raw input arguments to an internal
condition, where an absent argument parses to the neutral condition. -/
def getConditionGqlType (buildToken : BuildToken) (t : ObjType) : ConditionTypeInfo :=
  { gqlType := GqlInputType.condType (buildToken.formatTypeName t.name)
  , fromGqlInput := fun input =>
      match input with
      | none => Condition.trueC
      | some raw => Condition.fieldsC raw }

/-- Modelled from the spec: `createConnectionGqlField` lives in the connection
module, not under `src/`.  Per the spec it builds a paginated list field from
the paginator, the input argument entries and the per-invocation
`getPaginatorInput` function; the field records exactly those. -/
def createConnectionGqlField (paginatorId : Nat)
    (inputArgEntries : List (String × GqlInputType))
    (getPaginatorInput : Value → Option GqlInput → Condition) : GqlField :=
  GqlField.conn paginatorId inputArgEntries getPaginatorInput

/-- Modelled from the spec: `buildObject` comes from the utils module, not
under `src/`.  Per the spec the field-entry assembler concatenates the entry
streams in their given order, dropping absent entries (the JavaScript `false`
and `null` items of the streams, modelled as `none`). -/
def buildObject (streams : List (List (Option (String × GqlField)))) :
    List (String × GqlField) :=
  (streams.map (fun stream => stream.filterMap id)).flatten

/-- The description string of the id field, verbatim from the source. -/
def idFieldDescription : String :=
  "A globally unique identifier. Can be used in various places throughout the system to identify this single value."

/-- The body of the arrow function mapped over the head relations of the
collection in `createCollectionGqlType`: `null` when the tail collection has
no paginator or the relation has no `getTailConditionFromHeadValue`,
otherwise the connection field entry. -/
def relationHeadFieldEntry (buildToken : BuildToken) (relation : Relation) :
    Option (String × GqlField) :=
  let tailCollection := relation.tailCollection
  let tailPaginator := tailCollection.paginator
  match tailPaginator, relation.getTailConditionFromHeadValue with
  | some paginatorId, some getTailCondition =>
      let info := getConditionGqlType buildToken tailCollection.type
      some ( buildToken.formatFieldName (tailCollection.name ++ "-by-" ++ relation.name)
           , createConnectionGqlField paginatorId
               [("condition", info.gqlType)]
               (fun headValue args =>
                 conditionAnd (getTailCondition headValue) (info.fromGqlInput args)) )
  | _, _ => none

/-- Translation of `createCollectionGqlType`, the private non-memoized
implementation. -/
def createCollectionGqlType (buildToken : BuildToken) (collection : Collection) :
    GqlObjectType :=
  let collectionTypeName := buildToken.formatTypeName collection.type.name
  { name := collectionTypeName
  , description := collection.description
  , isTypeOf := fun value =>
      (if value.isObjValue && (Value.tag value).isSome
       then Value.tag value == some collection.id
       else true)
      && collection.type.isTypeOf value
  , interfaces := if collection.primaryKey.isSome then [buildToken.nodeInterface] else []
  , fields := fun _ => buildObject
      [ [ if collection.primaryKey.isSome
          then some ( buildToken.options.nodeIdFieldName
                    , GqlField.out (some idFieldDescription)
                        (GqlType.nonNull GqlType.gqlID)
                        (fun value => Mixed.str (buildToken.serializeId collection value)) )
          else none ]
      , collection.type.fields.map (fun entry =>
          some ( buildToken.formatFieldName entry.1
               , GqlField.out entry.2.description
                   (buildToken.getGqlType entry.2.type false)
                   (fun value => value.get entry.1) ))
      , (match buildToken.hooks.objectTypeFieldEntries with
         | some hook => hook collection.type
         | none => []).map some
      , (buildToken.tailRelationEntries collection).map some
      , (buildToken.inventory.relations.filter
          (fun relation => relation.headCollectionId == collection.id)).map
          (fun relation => relationHeadFieldEntry buildToken relation)
      ] }

/-- The memoization cache of `memoize2`, keyed by the (token, collection)
identity pair.  A cached entry stores the allocation tag of the built type
instance (modelling the JavaScript object reference) next to the instance
itself; `next` is the fresh-allocation counter. -/
structure SchemaCache where
  entries : List ((Nat × Nat) × (Nat × GqlObjectType))
  next : Nat

/-- Lookup in the memoization cache by key. -/
def cacheLookup (key : Nat × Nat) :
    List ((Nat × Nat) × (Nat × GqlObjectType)) → Option (Nat × GqlObjectType)
  | [] => none
  | (k, v) :: rest => if key = k then some v else cacheLookup key rest

/-- Modelled from the spec: `memoize2` comes from the utils module, not under
`src/`.  Per the spec the memoized getter has get-or-create semantics keyed
on the (build token, collection) identity pair, and the built instance is
stored in the cache before its lazy field thunk is ever forced, so reentrant
calls made while a thunk is being forced already see the cached entry.  A
cache miss allocates a fresh instance tag for the newly built type. -/
def getCollectionGqlType (buildToken : BuildToken) (collection : Collection)
    (s : SchemaCache) : (Nat × GqlObjectType) × SchemaCache :=
  match cacheLookup (buildToken.id, collection.id) s.entries with
  | some inst => (inst, s)
  | none =>
      let t := createCollectionGqlType buildToken collection
      ( (s.next, t)
      , { entries := ((buildToken.id, collection.id), (s.next, t)) :: s.entries
        , next := s.next + 1 } )

/-- Run a sequence of getter calls against the cache, keeping only the final
cache state.  This models arbitrary construction activity between two calls,
including the reentrant calls a lazy field thunk performs while it is being
forced. -/
def runCalls : List (BuildToken × Collection) → SchemaCache → SchemaCache
  | [], s => s
  | call :: rest, s => runCalls rest (getCollectionGqlType call.1 call.2 s).2

/-- Spec-side description of the identifier field stream: present exactly
when the collection has a primary key, a single field named by the
configuration, of non-null identifier type, resolving by serializing the
collection and the value through the identifier-encoding collaborator. -/
def identifierFieldEntries (buildToken : BuildToken) (collection : Collection) :
    List (String × GqlField) :=
  match collection.primaryKey with
  | some _ =>
      [ ( buildToken.options.nodeIdFieldName
        , GqlField.out (some idFieldDescription)
            (GqlType.nonNull GqlType.gqlID)
            (fun value => Mixed.str (buildToken.serializeId collection value)) ) ]
  | none => []

/-- Spec-side description of the declared field stream: one entry per entity
field, in the field order of the collection, name through the field-naming
policy, type through the shared type-resolution collaborator in non-input
context, resolver forwarding to the stored value of the field. -/
def declaredFieldEntries (buildToken : BuildToken) (collection : Collection) :
    List (String × GqlField) :=
  collection.type.fields.map (fun entry =>
    ( buildToken.formatFieldName entry.1
    , GqlField.out entry.2.description
        (buildToken.getGqlType entry.2.type false)
        (fun value => value.get entry.1) ))

/-- Spec-side description of the extension-hook field stream: whatever the
registered hook returns for the entity type, nothing when no hook is
registered. -/
def hookFieldEntries (buildToken : BuildToken) (collection : Collection) :
    List (String × GqlField) :=
  match buildToken.hooks.objectTypeFieldEntries with
  | some hook => hook collection.type
  | none => []

/-- Spec-side description of the head relation field stream: the relations of
the registry whose head collection is the target collection, in registry
order, each mapped to its connection field entry when it has one. -/
def headRelationFieldEntries (buildToken : BuildToken) (collection : Collection) :
    List (String × GqlField) :=
  ((buildToken.inventory.relations.filter
      (fun relation => relation.headCollectionId == collection.id)).map
      (fun relation => relationHeadFieldEntry buildToken relation)).filterMap id

/-- Spec-side description of the full field order: identifier field, declared
fields, hook fields, tail relation fields, head relation fields. -/
def specFieldOrder (buildToken : BuildToken) (collection : Collection) :
    List (String × GqlField) :=
  identifierFieldEntries buildToken collection
    ++ declaredFieldEntries buildToken collection
    ++ hookFieldEntries buildToken collection
    ++ buildToken.tailRelationEntries collection
    ++ headRelationFieldEntries buildToken collection

lemma filterMap_id_map {α β : Type} (f : α → Option β) (l : List α) :
    (l.map f).filterMap id = l.filterMap f := by
  induction l with
  | nil => rfl
  | cons a rest ih => cases h : f a <;> simp [List.filterMap_cons, h, ih]

lemma filterMap_id_map_some {α : Type} (l : List α) : (l.map some).filterMap id = l := by
  induction l with
  | nil => rfl
  | cons a rest ih => simp [List.filterMap_cons, ih]

lemma filterMap_id_map_mk {α β : Type} (g : α → β) (l : List α) :
    (l.map (fun a => some (g a))).filterMap id = l.map g := by
  induction l with
  | nil => rfl
  | cons a rest ih => simp [List.filterMap_cons, ih]

lemma filterMap_some_mk {α β : Type} (g : α → β) (l : List α) :
    l.filterMap (fun a => some (g a)) = l.map g := by
  induction l with
  | nil => rfl
  | cons a rest ih => simp [List.filterMap_cons, ih]

/-- The forced field thunk of the built type is exactly the spec-side field
order. -/
lemma fields_eq_spec (buildToken : BuildToken) (collection : Collection) :
    (createCollectionGqlType buildToken collection).fields () = specFieldOrder buildToken collection := by
  cases hpk : collection.primaryKey <;>
  cases hhook : buildToken.hooks.objectTypeFieldEntries <;>
    simp [createCollectionGqlType, specFieldOrder, buildObject, identifierFieldEntries,
      declaredFieldEntries, hookFieldEntries, headRelationFieldEntries, hpk, hhook,
      filterMap_id_map, filterMap_id_map_some, filterMap_id_map_mk, filterMap_some_mk,
      List.filterMap_cons]

lemma conditionAnd_trueC (c : Condition) : conditionAnd c Condition.trueC = c := by
  cases c <;> rfl

lemma getCollectionGqlType_hit (buildToken : BuildToken) (collection : Collection)
    (s : SchemaCache) (v : Nat × GqlObjectType)
    (h : cacheLookup (buildToken.id, collection.id) s.entries = some v) :
    getCollectionGqlType buildToken collection s = (v, s) := by
  unfold getCollectionGqlType
  rw [h]

lemma cacheLookup_step (buildToken : BuildToken) (collection : Collection)
    (s : SchemaCache) (key : Nat × Nat) (v : Nat × GqlObjectType)
    (h : cacheLookup key s.entries = some v) :
    cacheLookup key ((getCollectionGqlType buildToken collection s).2).entries = some v := by
  unfold getCollectionGqlType
  cases hc : cacheLookup (buildToken.id, collection.id) s.entries with
  | some inst => simpa using h
  | none =>
      by_cases hk : key = (buildToken.id, collection.id)
      · subst hk
        rw [h] at hc
        cases hc
      · simpa [cacheLookup, hk] using h

lemma runCalls_preserves (calls : List (BuildToken × Collection)) (s : SchemaCache)
    (key : Nat × Nat) (v : Nat × GqlObjectType)
    (h : cacheLookup key s.entries = some v) :
    cacheLookup key (runCalls calls s).entries = some v := by
  induction calls generalizing s with
  | nil => simpa [runCalls] using h
  | cons call rest ih => exact ih _ (cacheLookup_step call.1 call.2 s key v h)

lemma getCollectionGqlType_caches (buildToken : BuildToken) (collection : Collection)
    (s : SchemaCache) :
    cacheLookup (buildToken.id, collection.id)
        ((getCollectionGqlType buildToken collection s).2).entries
      = some (getCollectionGqlType buildToken collection s).1 := by
  unfold getCollectionGqlType
  cases hc : cacheLookup (buildToken.id, collection.id) s.entries with
  | some inst => simpa using hc
  | none => simp [cacheLookup]

/-- C1: for every build context and collection, `getCollectionGqlType` called
twice returns the identical (reference-equal) type instance — the allocation
tag and the built type both coincide — even when the second call happens
after arbitrary further getter activity, which covers reentrant calls made
from inside the lazy field thunk of the first type while a related
collection's fields are being resolved (the instance is cached before any
thunk is forced). -/
theorem getCollectionGqlType_memoized (buildToken : BuildToken) (collection : Collection)
    (s : SchemaCache) (calls : List (BuildToken × Collection)) :
    (getCollectionGqlType buildToken collection
        (runCalls calls (getCollectionGqlType buildToken collection s).2)).1
      = (getCollectionGqlType buildToken collection s).1 := by
  have hcache := getCollectionGqlType_caches buildToken collection s
  have hlook := runCalls_preserves calls _ _ _ hcache
  rw [getCollectionGqlType_hit buildToken collection _ _ hlook]

/-- Sample entity type for concrete evaluations: one declared field and a
shape check requiring a stored `firstName`. -/
def sampleObjType : ObjType :=
  { name := "person"
  , fields := [("firstName", { description := some "the first name", type := 1 })]
  , isTypeOf := fun value =>
      match value.get "firstName" with
      | Mixed.undef => false
      | _ => true }

/-- Sample collection with a primary key and a paginator. -/
def samplePersonCollection : Collection :=
  { id := 1
  , name := "people"
  , description := some "the people collection"
  , type := sampleObjType
  , primaryKey := some 0
  , paginator := some 7 }

/-- Sample entity type with no fields accepting every value. -/
def sampleNoteType : ObjType :=
  { name := "note", fields := [], isTypeOf := fun _ => true }

/-- Sample collection without primary key and without paginator. -/
def sampleNoteCollection : Collection :=
  { id := 2
  , name := "notes"
  , description := none
  , type := sampleNoteType
  , primaryKey := none
  , paginator := none }

/-- Sample head-value-to-condition capability. -/
def sampleHeadCondition : Value → Condition := fun _ => Condition.atom 5

/-- Sample relation with both capabilities: head is the note collection, tail
the person collection (which has a paginator). -/
def sampleRelation : Relation :=
  { headCollectionId := 2
  , tailCollection := samplePersonCollection
  , name := "author"
  , getTailConditionFromHeadValue := some sampleHeadCondition }

/-- Sample relation whose tail collection has no paginator. -/
def sampleBadRelation : Relation :=
  { headCollectionId := 1
  , tailCollection := sampleNoteCollection
  , name := "owner"
  , getTailConditionFromHeadValue := some sampleHeadCondition }

/-- Sample build token with concrete collaborators. -/
def sampleToken : BuildToken :=
  { id := 0
  , options := { nodeIdFieldName := "id" }
  , inventory := { relations := [sampleRelation, sampleBadRelation] }
  , hooks := { objectTypeFieldEntries := none }
  , formatTypeName := fun s => s
  , formatFieldName := fun s => s
  , getGqlType := fun code _ => GqlType.ext code
  , serializeId := fun collection _ => collection.name
  , nodeInterface := 9
  , tailRelationEntries := fun _ => [] }

/-- C2: a collection without a primary key yields a type with no identifier
field and no declared node interface; a collection with a primary key yields
a type declaring exactly the node interface and carrying exactly one
identifier field, of non-null ID type, resolving by serializing the
collection and the value through the identifier-encoding collaborator. -/
theorem primaryKey_id_field (buildToken : BuildToken) (collection : Collection) :
    (collection.primaryKey = none →
      (createCollectionGqlType buildToken collection).interfaces = []
      ∧ (createCollectionGqlType buildToken collection).fields ()
          = declaredFieldEntries buildToken collection
              ++ hookFieldEntries buildToken collection
              ++ buildToken.tailRelationEntries collection
              ++ headRelationFieldEntries buildToken collection)
    ∧ (∀ k, collection.primaryKey = some k →
      (createCollectionGqlType buildToken collection).interfaces = [buildToken.nodeInterface]
      ∧ (createCollectionGqlType buildToken collection).fields ()
          = ( buildToken.options.nodeIdFieldName
            , GqlField.out (some idFieldDescription) (GqlType.nonNull GqlType.gqlID)
                (fun value => Mixed.str (buildToken.serializeId collection value)) )
              :: (declaredFieldEntries buildToken collection
                  ++ hookFieldEntries buildToken collection
                  ++ buildToken.tailRelationEntries collection
                  ++ headRelationFieldEntries buildToken collection)) := by
  constructor
  · intro hpk
    refine ⟨by simp [createCollectionGqlType, hpk], ?_⟩
    rw [fields_eq_spec]
    simp [specFieldOrder, identifierFieldEntries, hpk]
  · intro k hpk
    refine ⟨by simp [createCollectionGqlType, hpk], ?_⟩
    rw [fields_eq_spec]
    simp [specFieldOrder, identifierFieldEntries, hpk]

theorem primaryKey_id_field_witness :
    (samplePersonCollection.primaryKey = some 0
      ∧ ((createCollectionGqlType sampleToken samplePersonCollection).interfaces
            = [sampleToken.nodeInterface]
        ∧ (createCollectionGqlType sampleToken samplePersonCollection).fields ()
            = ( sampleToken.options.nodeIdFieldName
              , GqlField.out (some idFieldDescription) (GqlType.nonNull GqlType.gqlID)
                  (fun value => Mixed.str (sampleToken.serializeId samplePersonCollection value)) )
                :: (declaredFieldEntries sampleToken samplePersonCollection
                    ++ hookFieldEntries sampleToken samplePersonCollection
                    ++ sampleToken.tailRelationEntries samplePersonCollection
                    ++ headRelationFieldEntries sampleToken samplePersonCollection)))
    ∧ (sampleNoteCollection.primaryKey = none
      ∧ ((createCollectionGqlType sampleToken sampleNoteCollection).interfaces = []
        ∧ (createCollectionGqlType sampleToken sampleNoteCollection).fields ()
            = declaredFieldEntries sampleToken sampleNoteCollection
                ++ hookFieldEntries sampleToken sampleNoteCollection
                ++ sampleToken.tailRelationEntries sampleNoteCollection
                ++ headRelationFieldEntries sampleToken sampleNoteCollection)) :=
  ⟨⟨rfl, (primaryKey_id_field sampleToken samplePersonCollection).2 0 rfl⟩,
   ⟨rfl, (primaryKey_id_field sampleToken sampleNoteCollection).1 rfl⟩⟩

/-- C3: forcing the field thunk of the built type yields the deterministic
concatenation: identifier field (if any), declared entity fields in the
collection's own field order, extension-hook fields, tail relation fields,
then head relation fields in relation-registry order. -/
theorem field_order_deterministic (buildToken : BuildToken) (collection : Collection) :
    (createCollectionGqlType buildToken collection).fields ()
      = specFieldOrder buildToken collection :=
  fields_eq_spec buildToken collection

/-- C8: the built type contains one declared field entry per entity field, in
the collection's own field order, named through the field-naming policy,
typed through the shared type-resolution collaborator in non-input context,
and resolving to the stored value of the field for the given entity
instance. -/
theorem declared_fields_shape (buildToken : BuildToken) (collection : Collection) :
    (createCollectionGqlType buildToken collection).fields ()
      = identifierFieldEntries buildToken collection
          ++ collection.type.fields.map (fun entry =>
              ( buildToken.formatFieldName entry.1
              , GqlField.out entry.2.description
                  (buildToken.getGqlType entry.2.type false)
                  (fun value => value.get entry.1) ))
          ++ hookFieldEntries buildToken collection
          ++ buildToken.tailRelationEntries collection
          ++ headRelationFieldEntries buildToken collection := by
  rw [fields_eq_spec]
  rfl

/-- C4: a head relation whose tail collection has no paginator, or which has
no head-value-to-condition capability, produces no connection field: its
entry is `null` and the built field list is the same as if the relation were
absent from the registry.  The builder is a total function, so no error is
raised. -/
theorem incapable_relation_omitted (buildToken : BuildToken) (collection : Collection)
    (before after : List Relation) (relation : Relation)
    (h : relation.tailCollection.paginator = none
        ∨ relation.getTailConditionFromHeadValue = none) :
    relationHeadFieldEntry buildToken relation = none
    ∧ (createCollectionGqlType
          { buildToken with inventory := { relations := before ++ relation :: after } }
          collection).fields ()
        = (createCollectionGqlType
            { buildToken with inventory := { relations := before ++ after } }
            collection).fields () := by
  have hnoneAll : ∀ t : BuildToken, relationHeadFieldEntry t relation = none := by
    intro t
    rcases h with h | h
    · simp [relationHeadFieldEntry, h]
    · cases hp : relation.tailCollection.paginator <;>
        simp [relationHeadFieldEntry, h, hp]
  have htok : ∀ (inv : Inventory) (r : Relation),
      relationHeadFieldEntry { buildToken with inventory := inv } r
        = relationHeadFieldEntry buildToken r := by
    intro inv r
    cases hp : r.tailCollection.paginator <;>
      cases hg : r.getTailConditionFromHeadValue <;>
        simp [relationHeadFieldEntry, getConditionGqlType, hp, hg]
  refine ⟨hnoneAll buildToken, ?_⟩
  rw [fields_eq_spec, fields_eq_spec]
  simp only [specFieldOrder, identifierFieldEntries, declaredFieldEntries, hookFieldEntries,
    headRelationFieldEntries]
  cases hc : (relation.headCollectionId == collection.id) <;>
    simp [filterMap_id_map, List.filter_append, List.filter_cons, hc,
      List.filterMap_append, List.filterMap_cons, hnoneAll, htok]

theorem incapable_relation_omitted_witness :
    (sampleBadRelation.tailCollection.paginator = none
      ∨ sampleBadRelation.getTailConditionFromHeadValue = none)
    ∧ (relationHeadFieldEntry sampleToken sampleBadRelation = none
      ∧ (createCollectionGqlType
            { sampleToken with
              inventory := { relations := [sampleRelation] ++ sampleBadRelation :: [] } }
            samplePersonCollection).fields ()
          = (createCollectionGqlType
              { sampleToken with inventory := { relations := [sampleRelation] ++ [] } }
              samplePersonCollection).fields ()) :=
  ⟨Or.inl rfl,
   incapable_relation_omitted sampleToken samplePersonCollection [sampleRelation] []
     sampleBadRelation (Or.inl rfl)⟩

/-- C5: a head relation with a tail paginator and a condition-derivation
capability produces a connection field named
`<tail-entity-name>-by-<relation-name>` passed through the field-naming
policy, exposing exactly one input argument, named `condition`, whose type
is the filter-condition type of the tail entity. -/
theorem head_relation_field_shape (buildToken : BuildToken) (relation : Relation)
    (paginatorId : Nat) (getTailCondition : Value → Condition)
    (hp : relation.tailCollection.paginator = some paginatorId)
    (hc : relation.getTailConditionFromHeadValue = some getTailCondition) :
    ∃ g, relationHeadFieldEntry buildToken relation
        = some ( buildToken.formatFieldName
                   (relation.tailCollection.name ++ "-by-" ++ relation.name)
               , GqlField.conn paginatorId
                   [("condition",
                     (getConditionGqlType buildToken relation.tailCollection.type).gqlType)]
                   g ) :=
  ⟨ fun headValue args =>
      conditionAnd (getTailCondition headValue)
        ((getConditionGqlType buildToken relation.tailCollection.type).fromGqlInput args)
  , by simp [relationHeadFieldEntry, hp, hc, createConnectionGqlField] ⟩

theorem head_relation_field_shape_witness :
    sampleRelation.tailCollection.paginator = some 7
    ∧ sampleRelation.getTailConditionFromHeadValue = some sampleHeadCondition
    ∧ ∃ g, relationHeadFieldEntry sampleToken sampleRelation
        = some ( sampleToken.formatFieldName
                   (sampleRelation.tailCollection.name ++ "-by-" ++ sampleRelation.name)
               , GqlField.conn 7
                   [("condition",
                     (getConditionGqlType sampleToken sampleRelation.tailCollection.type).gqlType)]
                   g ) :=
  ⟨rfl, rfl, head_relation_field_shape sampleToken sampleRelation 7 sampleHeadCondition rfl rfl⟩

/-- C6: the paginator input of a produced head relation field is, for every
head value and argument set, the logical AND of the head-derived relation
condition and the condition parsed from the `condition` argument of the
caller (neutral when absent); with no `condition` argument it equals the
bare head-derived condition. -/
theorem paginator_input_and_composition (buildToken : BuildToken) (relation : Relation)
    (paginatorId : Nat) (getTailCondition : Value → Condition)
    (hp : relation.tailCollection.paginator = some paginatorId)
    (hc : relation.getTailConditionFromHeadValue = some getTailCondition) :
    ∃ fieldName args g,
      relationHeadFieldEntry buildToken relation
          = some (fieldName, GqlField.conn paginatorId args g)
      ∧ (∀ headValue input, g headValue input
          = conditionAnd (getTailCondition headValue)
              ((getConditionGqlType buildToken relation.tailCollection.type).fromGqlInput input))
      ∧ (∀ headValue, g headValue none = getTailCondition headValue) := by
  refine ⟨ buildToken.formatFieldName
             (relation.tailCollection.name ++ "-by-" ++ relation.name)
         , [("condition",
             (getConditionGqlType buildToken relation.tailCollection.type).gqlType)]
         , fun headValue args =>
             conditionAnd (getTailCondition headValue)
               ((getConditionGqlType buildToken relation.tailCollection.type).fromGqlInput args)
         , by simp [relationHeadFieldEntry, hp, hc, createConnectionGqlField]
         , fun headValue input => rfl
         , ?_ ⟩
  intro headValue
  show conditionAnd (getTailCondition headValue)
      ((getConditionGqlType buildToken relation.tailCollection.type).fromGqlInput none)
    = getTailCondition headValue
  have hneutral :
      (getConditionGqlType buildToken relation.tailCollection.type).fromGqlInput none
        = Condition.trueC := rfl
  rw [hneutral]
  exact conditionAnd_trueC (getTailCondition headValue)

theorem paginator_input_and_composition_witness :
    sampleRelation.tailCollection.paginator = some 7
    ∧ sampleRelation.getTailConditionFromHeadValue = some sampleHeadCondition
    ∧ ∃ fieldName args g,
      relationHeadFieldEntry sampleToken sampleRelation
          = some (fieldName, GqlField.conn 7 args g)
      ∧ (∀ headValue input, g headValue input
          = conditionAnd (sampleHeadCondition headValue)
              ((getConditionGqlType sampleToken sampleRelation.tailCollection.type).fromGqlInput input))
      ∧ (∀ headValue, g headValue none = sampleHeadCondition headValue) :=
  ⟨rfl, rfl,
   paginator_input_and_composition sampleToken sampleRelation 7 sampleHeadCondition rfl rfl⟩

/-- C7: the identity-check predicate of the built type returns false for a
value tagged with a different collection, and for an untagged value it
returns exactly the result of the shape-check capability of the entity. -/
theorem isTypeOf_foreign_tag (buildToken : BuildToken) (collection : Collection)
    (value : Value) :
    (∀ c, Value.tag value = some c → c ≠ collection.id →
        (createCollectionGqlType buildToken collection).isTypeOf value = false)
    ∧ (Value.tag value = none →
        (createCollectionGqlType buildToken collection).isTypeOf value
          = collection.type.isTypeOf value) := by
  constructor
  · intro c htag hne
    cases value with
    | nullV => cases htag
    | undefinedV => cases htag
    | obj t entries =>
        simp only [Value.tag] at htag
        subst htag
        simp [createCollectionGqlType, Value.tag, Value.isObjValue, hne]
  · intro htag
    cases value with
    | nullV => simp [createCollectionGqlType, Value.tag, Value.isObjValue]
    | undefinedV => simp [createCollectionGqlType, Value.tag, Value.isObjValue]
    | obj t entries =>
        simp only [Value.tag] at htag
        subst htag
        simp [createCollectionGqlType, Value.tag, Value.isObjValue]

theorem isTypeOf_foreign_tag_witness :
    (Value.tag (Value.obj (some 99) [("firstName", Mixed.str "ada")]) = some 99
      ∧ 99 ≠ samplePersonCollection.id
      ∧ (createCollectionGqlType sampleToken samplePersonCollection).isTypeOf
          (Value.obj (some 99) [("firstName", Mixed.str "ada")]) = false)
    ∧ (Value.tag (Value.obj none [("firstName", Mixed.str "ada")]) = none
      ∧ (createCollectionGqlType sampleToken samplePersonCollection).isTypeOf
          (Value.obj none [("firstName", Mixed.str "ada")])
        = samplePersonCollection.type.isTypeOf
            (Value.obj none [("firstName", Mixed.str "ada")])) :=
  ⟨⟨rfl, by decide,
    (isTypeOf_foreign_tag sampleToken samplePersonCollection
        (Value.obj (some 99) [("firstName", Mixed.str "ada")])).1 99 rfl (by decide)⟩,
   ⟨rfl,
    (isTypeOf_foreign_tag sampleToken samplePersonCollection
        (Value.obj none [("firstName", Mixed.str "ada")])).2 rfl⟩⟩

/-- C9: for a value tagged with the target collection itself, the
identity-check predicate does not return true on the tag match alone: its
result is the shape-check of the entity, so a correctly tagged value failing
the shape-check is rejected. -/
theorem isTypeOf_requires_shape (buildToken : BuildToken) (collection : Collection)
    (value : Value) (htag : Value.tag value = some collection.id) :
    (createCollectionGqlType buildToken collection).isTypeOf value
        = collection.type.isTypeOf value
    ∧ (collection.type.isTypeOf value = false →
        (createCollectionGqlType buildToken collection).isTypeOf value = false) := by
  have heq : (createCollectionGqlType buildToken collection).isTypeOf value
      = collection.type.isTypeOf value := by
    cases value with
    | nullV => cases htag
    | undefinedV => cases htag
    | obj t entries =>
        simp only [Value.tag] at htag
        subst htag
        simp [createCollectionGqlType, Value.tag, Value.isObjValue]
  exact ⟨heq, fun hshape => heq.trans hshape⟩

theorem isTypeOf_requires_shape_witness :
    Value.tag (Value.obj (some 1) []) = some samplePersonCollection.id
    ∧ ((createCollectionGqlType sampleToken samplePersonCollection).isTypeOf
          (Value.obj (some 1) [])
        = samplePersonCollection.type.isTypeOf (Value.obj (some 1) [])
      ∧ (samplePersonCollection.type.isTypeOf (Value.obj (some 1) []) = false →
          (createCollectionGqlType sampleToken samplePersonCollection).isTypeOf
            (Value.obj (some 1) []) = false))
    ∧ samplePersonCollection.type.isTypeOf (Value.obj (some 1) []) = false :=
  ⟨rfl,
   isTypeOf_requires_shape sampleToken samplePersonCollection (Value.obj (some 1) []) rfl,
   rfl⟩

/-- C10: the identity-check predicate is total on null and undefined inputs:
the tag lookup is guarded by the null check, and for both inputs the result
is exactly the shape-check of the entity applied to that input. -/
theorem isTypeOf_null_delegates (buildToken : BuildToken) (collection : Collection) :
    (createCollectionGqlType buildToken collection).isTypeOf Value.nullV
        = collection.type.isTypeOf Value.nullV
    ∧ (createCollectionGqlType buildToken collection).isTypeOf Value.undefinedV
        = collection.type.isTypeOf Value.undefinedV := by
  constructor <;> simp [createCollectionGqlType, Value.tag, Value.isObjValue]
